import Mathlib

/-!
Shallow embedding of the party-vote backend (`src/index.js`, canonical first
draft, together with the near-duplicate drafts in the same file and
`src/unnamed/part_000`).

The shared store (Supabase tables `current_song`, `votes`, `song_history`) is
modelled as lists of rows.  The store itself is assumed reliable; the only
external failure modelled is the Spotify skip command (`POST ...player/next`),
whose success is passed in as a boolean, because the vote handler's behaviour
depends on it.  Timestamps (`ended_at`, `updated_at`) are not modelled; the
history list keeps insertion order instead of an `ended_at` ordering, which no
claim depends on.

JS truthiness matters in two places and is embedded faithfully:
`!device_id` rejects a missing or empty device id, and
`if (lastTrackId && lastTrackId !== currentTrackId)` treats a null or empty
last-seen id as "no previous track".

JS numbers are IEEE 754 binary64.  The vote and history counters are small
integers, exact in binary64, so they are embedded as `Nat`; the analytics
skip percentage divides and multiplies non-integers, so its arithmetic is
emulated bit-exactly as dyadic rationals (see `Double`).
-/

namespace PartyVote

/-- A row of the `current_song` table (one live row per party is the intent;
the table itself is a list of rows). Counters are JS numbers used as
non-negative integers. -/
structure CurrentSong where
  party_id : String
  spotify_track_id : String
  track_name : String
  artist : String
  upvotes : Nat
  downvotes : Nat
deriving DecidableEq, Repr

/-- A row of the `votes` table: one vote of one device for one track of one
party. `vote` is the direction string, "up" or "down" after validation. -/
structure VoteRow where
  party_id : String
  spotify_track_id : String
  device_id : String
  vote : String
deriving DecidableEq, Repr

/-- A row of the append-only `song_history` table (`ended_at` omitted, see
module comment). -/
structure HistoryRow where
  party_id : String
  spotify_track_id : String
  track_name : String
  artist : String
  downvotes : Nat
  skipped : Bool
deriving DecidableEq, Repr

/-- The shared store: the three Supabase tables the coordinator touches. -/
structure Store where
  current_song : List CurrentSong
  votes : List VoteRow
  song_history : List HistoryRow
deriving DecidableEq, Repr

/-- Process configuration: `PARTY_ID` and `DOWNVOTE_THRESHOLD`
(`parseInt(process.env.DOWNVOTE_THRESHOLD || "5")`, default 5). -/
structure Config where
  partyId : String
  threshold : Nat
deriving DecidableEq, Repr

/-- The track snapshot returned by the playback poll
(`res.data.item`: id, name, first artist's name). -/
structure Track where
  id : String
  name : String
  artist : String
deriving DecidableEq, Repr

/-- `supabase.from("current_song").select("*").eq("party_id", p).single()`:
`.single()` yields a row exactly when the filter matches one row, else the
handler sees no data. -/
def selectSingleSong (s : Store) (p : String) : Option CurrentSong :=
  match s.current_song.filter (fun r => r.party_id == p) with
  | [x] => some x
  | _ => none

/-- `supabase.from("current_song").upsert(row, { onConflict: "party_id" })`:
replaces the row(s) with the same `party_id`, or appends when none exists. -/
def upsertCurrentSong (s : Store) (row : CurrentSong) : Store :=
  { s with current_song :=
      if s.current_song.any (fun r => r.party_id == row.party_id) then
        s.current_song.map (fun r => if r.party_id == row.party_id then row else r)
      else
        s.current_song ++ [row] }

/-- `supabase.from("current_song").update({ upvotes, downvotes }).eq("party_id", p)`. -/
def updateCounters (s : Store) (p : String) (u dn : Nat) : Store :=
  { s with current_song :=
      s.current_song.map (fun r =>
        if r.party_id == p then { r with upvotes := u, downvotes := dn } else r) }

/-- Does the ledger already hold a vote of this device for this (party, track)?
This is the store-level uniqueness constraint the handler's
"Prevent double voting" insert relies on. -/
def hasVote (l : List VoteRow) (p t d : String) : Bool :=
  l.any (fun r => r.party_id == p && r.spotify_track_id == t && r.device_id == d)

/-- `supabase.from("votes").insert(row)`: fails (the handler's `voteError`)
exactly when a row with the same (party, track, device) tuple exists. -/
def insertVote (s : Store) (row : VoteRow) : Option Store :=
  if hasVote s.votes row.party_id row.spotify_track_id row.device_id then
    none
  else
    some { s with votes := s.votes ++ [row] }

/-- `supabase.from("votes").delete().eq("party_id", p).eq("spotify_track_id", t)`. -/
def deleteVotes (s : Store) (p t : String) : Store :=
  { s with votes :=
      s.votes.filter (fun r => !(r.party_id == p && r.spotify_track_id == t)) }

/-- `supabase.from("song_history").insert(row)`: append-only. -/
def insertHistory (s : Store) (row : HistoryRow) : Store :=
  { s with song_history := s.song_history ++ [row] }

/-- JS truthiness of `device_id` taken from the request body: `undefined`
(absent field) and the empty string are falsy. -/
def truthyString : Option String → Bool
  | none => false
  | some str => !(str == "")

/-- The handler's input validation,
`if (!device_id || !["up", "down"].includes(vote))`. -/
def voteInputInvalid (d v : Option String) : Bool :=
  !truthyString d || !(v == some "up" || v == some "down")

/-- The HTTP response of `POST /vote`. `ok` carries the success body
`{ upvotes, downvotes, remaining_to_skip, skipped }`; `internalError` is the
outer catch's 500 (reached when the un-guarded Spotify skip call throws). -/
inductive VoteResponse where
  | badRequest
  | notFound
  | conflict
  | internalError
  | ok (upvotes downvotes remaining_to_skip : Nat) (skipped : Bool)
deriving DecidableEq, Repr

/-- What one `POST /vote` request did: the response, the resulting store, and
how many times the external skip command was attempted. -/
structure VoteOutcome where
  resp : VoteResponse
  store : Store
  skipAttempts : Nat
deriving DecidableEq, Repr

/-- `app.post("/vote", ...)` of the canonical draft (src/index.js lines
147-235), embedded step for step.  `skipOk` is whether the external
`POST .../me/player/next` succeeds; in this draft that call is not wrapped in
its own try/catch, so its failure propagates to the outer catch: the request
answers 500 and the history insert, counter reset and vote clearing do not
run (the per-vote counter update at lines 183-186 has already run). -/
def postVote (cfg : Config) (skipOk : Bool) (s : Store) (d v : Option String) :
    VoteOutcome :=
  if voteInputInvalid d v then
    ⟨.badRequest, s, 0⟩
  else
    match selectSingleSong s cfg.partyId with
    | none => ⟨.notFound, s, 0⟩
    | some song =>
      let dev := d.getD ""
      let dir := v.getD ""
      match insertVote s ⟨cfg.partyId, song.spotify_track_id, dev, dir⟩ with
      | none => ⟨.conflict, s, 0⟩
      | some s1 =>
        let upvotes := if dir == "up" then song.upvotes + 1 else song.upvotes
        let downvotes := if dir == "up" then song.downvotes else song.downvotes + 1
        let s2 := updateCounters s1 cfg.partyId upvotes downvotes
        if cfg.threshold ≤ downvotes then
          if skipOk then
            let s3 := insertHistory s2
              ⟨cfg.partyId, song.spotify_track_id, song.track_name, song.artist,
               downvotes, true⟩
            let s4 := updateCounters s3 cfg.partyId 0 0
            let s5 := deleteVotes s4 cfg.partyId song.spotify_track_id
            ⟨.ok upvotes downvotes (cfg.threshold - downvotes) true, s5, 1⟩
          else
            ⟨.internalError, s2, 1⟩
        else
          ⟨.ok upvotes downvotes (cfg.threshold - downvotes) false, s2, 0⟩

/-- Process state shared by the poll loop and the vote handler: the module
variable `lastTrackId` and the store. -/
structure SysState where
  lastTrackId : Option String
  store : Store
deriving DecidableEq, Repr

/-- One cycle of the `setInterval` poll loop (src/index.js lines 73-133).
`snap = none` is `!res.data?.item` (nothing playing): the cycle returns at
once.  The transition guard is the JS `lastTrackId && lastTrackId !==
currentTrackId`, so an empty last-seen id counts as no previous track.  Note
that the zero-counter upsert of the incoming track runs on every cycle with a
playing item, transition or not. -/
def pollCycle (cfg : Config) (snap : Option Track) (sys : SysState) : SysState :=
  match snap with
  | none => sys
  | some track =>
    let s0 := sys.store
    let s1 :=
      if (match sys.lastTrackId with
          | some lastId => !(lastId == "") && !(lastId == track.id)
          | none => false) then
        match selectSingleSong s0 cfg.partyId with
        | some prev =>
          deleteVotes
            (insertHistory s0
              ⟨cfg.partyId, prev.spotify_track_id, prev.track_name, prev.artist,
               prev.downvotes, false⟩)
            cfg.partyId prev.spotify_track_id
        | none => s0
      else s0
    let s2 := upsertCurrentSong s1
      ⟨cfg.partyId, track.id, track.name, track.artist, 0, 0⟩
    { lastTrackId := some track.id, store := s2 }

/-- The response of `GET /analytics` (src/index.js lines 238-256). -/
structure AnalyticsResponse where
  total_songs : Nat
  skipped_songs : Nat
  skip_rate : Int
  history : List HistoryRow
deriving DecidableEq, Repr

/-- `Math.round` applied to an exactly represented non-negative value: the
nearest integer, ties toward positive infinity (ECMA-262).  Used to state the
idealised exact formula `round(100 * skipped / total)`; the program itself
computes in binary64, modelled by `Double` below. -/
def jsRound (q : ℚ) : ℤ := ⌊q + 1 / 2⌋

/-!
JS numbers are IEEE 754 binary64 doubles, and
`Math.round((skippedSongs / totalSongs) * 100)` rounds twice before
`Math.round`: the division and the multiplication each round their exact
result to 53 significand bits (round to nearest, ties to even).  The helpers
below model a non-negative double exactly as a dyadic rational
`sig * 2 ^ exp` using only `Nat`/`Int` arithmetic.  `natLog2F` is a
fuel-bounded binary logarithm (structural recursion; fuel 1100 exceeds the
bit length of anything binary64 can hold, where magnitudes stay below
2 ^ 1024, so the bound is never hit on representable inputs).  Overflow and
subnormals are not modelled: a JS array length is an integer below 2 ^ 32, so
`skipped / total` is zero or lies in [2 ^ -32, 1] and the percentage in
[0, 100], far inside the normal range.
-/

/-- Fuel-bounded ⌊log₂ n⌋ (0 for n < 2), structural so the kernel can
evaluate it. -/
def natLog2F : Nat → Nat → Nat
  | 0, _ => 0
  | fuel + 1, n => if 2 ≤ n then natLog2F fuel (n / 2) + 1 else 0

/-- The integer nearest `a / b` (for `b > 0`), ties to the even integer —
IEEE round-to-nearest applied to an integer ratio. -/
def rdivNearestEven (a b : ℕ) : ℕ :=
  let q := a / b
  let r := a % b
  if 2 * r < b then q
  else if b < 2 * r then q + 1
  else if q % 2 = 0 then q else q + 1

/-- A non-negative binary64 value as the exact dyadic `sig * 2 ^ exp`. -/
structure Double where
  sig : ℕ
  exp : ℤ
deriving DecidableEq, Repr

/-- IEEE division `a / b` of exactly represented naturals (`b ≠ 0`): the
exact ratio correctly rounded to 53 significand bits.  The exponent
`e = ⌊log₂ (a / b)⌋` is found from the operands' bit lengths plus one
integer comparison, then the significand `a * 2 ^ (52 - e) / b` is rounded
to nearest, ties to even. -/
def Double.ofRatio (a b : ℕ) : Double :=
  if a = 0 then ⟨0, 0⟩
  else
    let e0 : ℤ := (natLog2F 1100 a : ℤ) - natLog2F 1100 b
    let ge : Bool := if 0 ≤ e0 then b * 2 ^ e0.toNat ≤ a else b ≤ a * 2 ^ (-e0).toNat
    let e : ℤ := if ge then e0 else e0 - 1
    let s : ℤ := 52 - e
    let m : ℕ := if 0 ≤ s then rdivNearestEven (a * 2 ^ s.toNat) b
                 else rdivNearestEven a (b * 2 ^ (-s).toNat)
    ⟨m, e - 52⟩

/-- IEEE multiplication of a double by a small exactly represented natural
(here 100): the exact product re-rounded to 53 significand bits. -/
def Double.mulNat (d : Double) (k : ℕ) : Double :=
  let m := d.sig * k
  let nb := natLog2F 1100 m
  if nb ≤ 52 then ⟨m, d.exp⟩
  else ⟨rdivNearestEven m (2 ^ (nb - 52)), d.exp + (nb - 52)⟩

/-- `Math.round` of a non-negative double: the nearest integer to its exact
value `sig / 2 ^ shift`, ties toward positive infinity, computed as
`⌊(2 * sig + 2 ^ shift) / 2 ^ (shift + 1)⌋` in integer arithmetic. -/
def Double.mathRound (d : Double) : ℤ :=
  if 0 ≤ d.exp then (d.sig : ℤ) * 2 ^ d.exp.toNat
  else ((2 * d.sig + 2 ^ (-d.exp).toNat) / 2 ^ ((-d.exp).toNat + 1) : ℕ)

/-- `Math.round((skippedSongs / totalSongs) * 100)` as the program computes
it: binary64 division, binary64 multiplication by 100, then `Math.round`. -/
def skipRateJS (skipped total : ℕ) : ℤ :=
  ((Double.ofRatio skipped total).mulNat 100).mathRound

/-- `app.get("/analytics", ...)`: fetch the party's history, count rows and
skipped rows, and compute `Math.round((skippedSongs / totalSongs) * 100)` in
binary64, guarded by `totalSongs ? ... : 0`. -/
def getAnalytics (s : Store) (p : String) : AnalyticsResponse :=
  let history := s.song_history.filter (fun h => h.party_id == p)
  let totalSongs := history.length
  let skippedSongs := (history.filter (fun h => h.skipped)).length
  { total_songs := totalSongs
    skipped_songs := skippedSongs
    skip_rate :=
      if totalSongs = 0 then 0
      else skipRateJS skippedSongs totalSongs
    history := history }

/-- One externally triggered operation of the coordinator: a poll cycle with
an arbitrary observed snapshot, or a vote request with arbitrary body and an
arbitrary outcome of the external skip command. -/
inductive Op where
  | poll (snap : Option Track)
  | vote (skipOk : Bool) (device_id vote : Option String)
deriving DecidableEq, Repr

/-- Apply one operation to the system state. -/
def stepOp (cfg : Config) (sys : SysState) : Op → SysState
  | .poll snap => pollCycle cfg snap sys
  | .vote skipOk d v => { sys with store := (postVote cfg skipOk sys.store d v).store }

/-- The state at process start: no `lastTrackId`, empty tables. -/
def initState : SysState := ⟨none, ⟨[], [], []⟩⟩

/-- Run a sequence of operations from the start state. -/
def runOps (cfg : Config) (ops : List Op) : SysState :=
  ops.foldl (stepOp cfg) initState

/-- A state is reachable when some operation sequence produces it. -/
def Reachable (cfg : Config) (sys : SysState) : Prop :=
  ∃ ops, runOps cfg ops = sys

/-- The ledger uniqueness invariant: no two rows share the
(party, track, device) tuple. -/
def VotesUnique (l : List VoteRow) : Prop :=
  l.Pairwise (fun a b =>
    ¬(a.party_id = b.party_id ∧ a.spotify_track_id = b.spotify_track_id ∧
      a.device_id = b.device_id))

/-! Concrete fixtures used by witnesses and counterexamples: the default
configuration (threshold 5) for party "p1", and small store states. -/

/-- The default deployment: `DOWNVOTE_THRESHOLD` unset, so threshold 5. -/
def cfg5 : Config := ⟨"p1", 5⟩

/-- A sample observed track. -/
def trackA : Track := ⟨"A", "Song A", "Artist A"⟩

/-- A store whose current song for "p1" is track "A" with counters (0, 4):
one more downvote reaches the default threshold. -/
def storeAt4 : Store := ⟨[⟨"p1", "A", "Song A", "Artist A", 0, 4⟩], [], []⟩

/-- A store whose current song for "p1" is track "A" with counters (0, 0)
and an empty ledger. -/
def storeFresh : Store := ⟨[⟨"p1", "A", "Song A", "Artist A", 0, 0⟩], [], []⟩

/-- A store where device "d1" has already voted down on track "A". -/
def storeVotedD1 : Store :=
  ⟨[⟨"p1", "A", "Song A", "Artist A", 0, 1⟩], [⟨"p1", "A", "d1", "down"⟩], []⟩

/-- Mid-party system state: track "A" is playing and last-seen, with
accumulated counters (2, 3) and one ledger row. -/
def sysMidParty : SysState :=
  ⟨some "A", ⟨[⟨"p1", "A", "Song A", "Artist A", 2, 3⟩],
              [⟨"p1", "A", "d1", "down"⟩], []⟩⟩

/-- The operation sequence of the C7 scenario: track "A" starts playing, five
distinct devices vote it down, and the external skip command fails on the
fifth (threshold-reaching) vote, so the 500 path leaves downvotes = 5 stored. -/
def opsFailedSkip : List Op :=
  [.poll (some trackA),
   .vote true (some "d1") (some "down"),
   .vote true (some "d2") (some "down"),
   .vote true (some "d3") (some "down"),
   .vote true (some "d4") (some "down"),
   .vote false (some "d5") (some "down")]

/-- The (reachable) state after `opsFailedSkip`. -/
def sysFailedSkip : SysState := runOps cfg5 opsFailedSkip

/-- A store with three archived tracks for party "p1", one of them skipped. -/
def storeHist : Store :=
  ⟨[], [],
   [⟨"p1", "A", "Song A", "Artist A", 5, true⟩,
    ⟨"p1", "B", "Song B", "Artist B", 0, false⟩,
    ⟨"p1", "C", "Song C", "Artist C", 2, false⟩]⟩

/-- A store with 40 archived tracks for party "p1", 23 of them skipped:
`(23 / 40) * 100` in binary64 is 57.49999999999999289…, so the program's
skip rate is 57 while the exact formula rounds 57.5 to 58. -/
def storeHist40 : Store :=
  ⟨[], [],
   List.replicate 23 ⟨"p1", "S", "Song S", "Artist S", 5, true⟩ ++
     List.replicate 17 ⟨"p1", "N", "Song N", "Artist N", 0, false⟩⟩

/-- Whether an operation's external skip command (if any) succeeds. -/
def opSkipOk : Op → Bool
  | .poll _ => true
  | .vote skipOk _ _ => skipOk

end PartyVote

/-!
### Helper lemmas

Small facts about the store operations, used by several claim theorems.
-/

namespace PartyVote

/-- `.single()` succeeding means the party filter matched exactly one row. -/
theorem selectSingleSong_filter_eq (s : Store) (p : String) (song : CurrentSong)
    (h : selectSingleSong s p = some song) :
    s.current_song.filter (fun r => r.party_id == p) = [song] := by
  unfold selectSingleSong at h
  split at h
  · next x heq => injection h with h; subst h; exact heq
  · cases h

/-- The selected song is a row of the table. -/
theorem selectSingleSong_mem (s : Store) (p : String) (song : CurrentSong)
    (h : selectSingleSong s p = some song) : song ∈ s.current_song := by
  have hf := selectSingleSong_filter_eq s p song h
  have hm : song ∈ s.current_song.filter (fun r => r.party_id == p) := by
    rw [hf]; exact List.mem_singleton_self song
  exact List.mem_of_mem_filter hm

/-- Any row of the table matching the party filter is the selected song. -/
theorem selectSingleSong_unique (s : Store) (p : String) (song : CurrentSong)
    (h : selectSingleSong s p = some song) :
    ∀ a ∈ s.current_song, (a.party_id == p) = true → a = song := by
  intro a ha hpa
  have hm : a ∈ s.current_song.filter (fun r => r.party_id == p) :=
    List.mem_filter.mpr ⟨ha, hpa⟩
  rw [selectSingleSong_filter_eq s p song h] at hm
  simpa using hm

/-- Replacing every row matching `p` and then filtering by `p` yields one
copy of the replacement per prior match. -/
theorem filter_map_if {α : Type} (p : α → Bool) (row : α) (hrow : p row = true)
    (l : List α) :
    (l.map (fun r => if p r then row else r)).filter p =
      (l.filter p).map (fun _ => row) := by
  induction l with
  | nil => rfl
  | cons a t ih =>
    by_cases h : p a
    · simp [h, hrow, ih]
    · simp [h, ih]

/-- After `updateCounters`, every row of the party carries the written pair. -/
theorem updateCounters_mem (s : Store) (p : String) (u dn : Nat) :
    ∀ r ∈ (updateCounters s p u dn).current_song,
      r.party_id = p → r.upvotes = u ∧ r.downvotes = dn := by
  intro r hr hp
  simp only [updateCounters, List.mem_map] at hr
  obtain ⟨x, hx, rfl⟩ := hr
  by_cases h : (x.party_id == p) = true
  · simp [h]
  · rw [if_neg (by simp [h])] at hp ⊢
    exact absurd hp (by simpa using h)

/-- After `updateCounters`, a row either belongs to the party and carries the
written counters, or is an untouched row of another party. -/
theorem updateCounters_mem_strong (s : Store) (p : String) (u dn : Nat) :
    ∀ r ∈ (updateCounters s p u dn).current_song,
      ((r.party_id == p) = true ∧ r.upvotes = u ∧ r.downvotes = dn) ∨
      ((r.party_id == p) = false ∧ r ∈ s.current_song) := by
  intro r hr
  simp only [updateCounters, List.mem_map] at hr
  obtain ⟨x, hx, rfl⟩ := hr
  by_cases h : (x.party_id == p) = true
  · left
    simp [h]
  · right
    rw [if_neg (by simp [h])]
    exact ⟨Bool.eq_false_iff.mpr (by simpa using h), hx⟩

/-- When the party already had exactly one row, the upsert leaves exactly the
new row for the party. -/
theorem upsertCurrentSong_filter (s : Store) (row x : CurrentSong)
    (hx : s.current_song.filter (fun r => r.party_id == row.party_id) = [x]) :
    (upsertCurrentSong s row).current_song.filter
        (fun r => r.party_id == row.party_id) = [row] := by
  have hxmem : x ∈ s.current_song.filter (fun r => r.party_id == row.party_id) := by
    rw [hx]; exact List.mem_singleton_self x
  have hany : s.current_song.any (fun r => r.party_id == row.party_id) = true :=
    List.any_eq_true.mpr ⟨x, List.mem_of_mem_filter hxmem, (List.mem_filter.mp hxmem).2⟩
  rw [upsertCurrentSong]
  simp only [hany, if_true]
  rw [filter_map_if (fun r => r.party_id == row.party_id) row (by simp) s.current_song,
    hx]
  rfl

/-- An upserted table's rows are the new row or prior rows. -/
theorem upsertCurrentSong_mem (s : Store) (row : CurrentSong) :
    ∀ r ∈ (upsertCurrentSong s row).current_song,
      r = row ∨ r ∈ s.current_song := by
  intro r hr
  unfold upsertCurrentSong at hr
  dsimp only at hr
  split at hr
  · simp only [List.mem_map] at hr
    obtain ⟨x, hx, rfl⟩ := hr
    split
    · exact Or.inl rfl
    · exact Or.inr hx
  · rcases List.mem_append.mp hr with h | h
    · exact Or.inr h
    · exact Or.inl (List.mem_singleton.mp h)

/-- A successful ledger insert means there was no duplicate tuple, and the
result is exactly the appended ledger. -/
theorem insertVote_eq (s : Store) (row : VoteRow) (s1 : Store)
    (h : insertVote s row = some s1) :
    hasVote s.votes row.party_id row.spotify_track_id row.device_id = false ∧
    s1 = { s with votes := s.votes ++ [row] } := by
  unfold insertVote at h
  split at h
  · cases h
  · next hguard =>
    injection h with h
    exact ⟨Bool.eq_false_iff.mpr hguard, h.symm⟩

end PartyVote

namespace PartyVote

/-- Appending a vote whose tuple is absent keeps the ledger duplicate-free. -/
theorem votesUnique_append (l : List VoteRow) (row : VoteRow)
    (h : VotesUnique l)
    (hnew : hasVote l row.party_id row.spotify_track_id row.device_id = false) :
    VotesUnique (l ++ [row]) := by
  rw [VotesUnique, List.pairwise_append]
  refine ⟨h, List.pairwise_singleton _ _, ?_⟩
  intro a ha b hb
  rw [List.mem_singleton] at hb
  subst hb
  rintro ⟨h1, h2, h3⟩
  have hv : hasVote l b.party_id b.spotify_track_id b.device_id = true := by
    rw [hasVote]
    exact List.any_eq_true.mpr ⟨a, ha, by simp [h1, h2, h3]⟩
  rw [hv] at hnew
  cases hnew

/-- Deleting rows keeps the ledger duplicate-free. -/
theorem votesUnique_filter (l : List VoteRow) (p : VoteRow → Bool)
    (h : VotesUnique l) : VotesUnique (l.filter p) :=
  List.Pairwise.sublist (List.filter_sublist l) h

/-- A poll cycle leaves the ledger unchanged or deletes rows from it. -/
theorem pollCycle_votes (cfg : Config) (snap : Option Track) (sys : SysState) :
    (pollCycle cfg snap sys).store.votes = sys.store.votes ∨
    ∃ p : VoteRow → Bool,
      (pollCycle cfg snap sys).store.votes = sys.store.votes.filter p := by
  unfold pollCycle
  cases snap with
  | none => left; rfl
  | some track =>
    dsimp only
    split
    · split
      · right; exact ⟨_, rfl⟩
      · left; rfl
    · left; rfl

/-- A vote request leaves the ledger unchanged, or appends one fresh row,
possibly followed by a bulk delete. -/
theorem postVote_votes (cfg : Config) (skipOk : Bool) (s : Store)
    (d v : Option String) :
    (postVote cfg skipOk s d v).store.votes = s.votes ∨
    ∃ row, hasVote s.votes row.party_id row.spotify_track_id row.device_id = false ∧
      ((postVote cfg skipOk s d v).store.votes = s.votes ++ [row] ∨
       ∃ p : VoteRow → Bool,
         (postVote cfg skipOk s d v).store.votes = (s.votes ++ [row]).filter p) := by
  unfold postVote
  split
  · left; rfl
  · split
    · left; rfl
    · next song heq =>
      dsimp only
      split
      · left; rfl
      · next s1 hins =>
        obtain ⟨hguard, hs1⟩ := insertVote_eq _ _ _ hins
        subst hs1
        repeat' split
        all_goals
          first
          | exact Or.inr ⟨_, hguard, Or.inl rfl⟩
          | exact Or.inr ⟨_, hguard, Or.inr ⟨_, rfl⟩⟩

/-- Every operation preserves ledger uniqueness. -/
theorem votesUnique_stepOp (cfg : Config) (sys : SysState) (op : Op)
    (h : VotesUnique sys.store.votes) :
    VotesUnique (stepOp cfg sys op).store.votes := by
  cases op with
  | poll snap =>
    rcases pollCycle_votes cfg snap sys with heq | ⟨p, heq⟩
    · show VotesUnique (pollCycle cfg snap sys).store.votes
      rw [heq]; exact h
    · show VotesUnique (pollCycle cfg snap sys).store.votes
      rw [heq]; exact votesUnique_filter _ _ h
  | vote skipOk d v =>
    rcases postVote_votes cfg skipOk sys.store d v with heq | ⟨row, hguard, heq | ⟨p, heq⟩⟩
    · show VotesUnique (postVote cfg skipOk sys.store d v).store.votes
      rw [heq]; exact h
    · show VotesUnique (postVote cfg skipOk sys.store d v).store.votes
      rw [heq]; exact votesUnique_append _ _ h hguard
    · show VotesUnique (postVote cfg skipOk sys.store d v).store.votes
      rw [heq]; exact votesUnique_filter _ _ (votesUnique_append _ _ h hguard)

/-- From the empty start state, every operation sequence keeps the ledger
duplicate-free. -/
theorem votesUnique_runOps (cfg : Config) (ops : List Op) :
    VotesUnique (runOps cfg ops).store.votes := by
  rw [runOps]
  have main : ∀ (l : List Op) (sys : SysState), VotesUnique sys.store.votes →
      VotesUnique (l.foldl (stepOp cfg) sys).store.votes := by
    intro l
    induction l with
    | nil => intro sys h; exact h
    | cons op t ih => intro sys h; exact ih _ (votesUnique_stepOp cfg sys op h)
  exact main ops initState List.Pairwise.nil

/-- Ledger uniqueness holds in every reachable state. -/
theorem votesUnique_reachable (cfg : Config) (sys : SysState)
    (h : Reachable cfg sys) : VotesUnique sys.store.votes := by
  obtain ⟨ops, rfl⟩ := h
  exact votesUnique_runOps cfg ops

end PartyVote

namespace PartyVote

/-- A vote whose skip command succeeds keeps every stored downvote counter
below a positive threshold. -/
theorem postVote_keeps_lt (cfg : Config) (s : Store) (d v : Option String)
    (h0 : 0 < cfg.threshold)
    (hlt : ∀ r ∈ s.current_song, r.downvotes < cfg.threshold) :
    ∀ r ∈ (postVote cfg true s d v).store.current_song,
      r.downvotes < cfg.threshold := by
  unfold postVote
  dsimp only
  split
  · exact hlt
  · split
    · exact hlt
    · next song hsong =>
      split
      · exact hlt
      · next s1 hins =>
        obtain ⟨hguard, hs1⟩ := insertVote_eq _ _ _ hins
        subst hs1
        split
        · split
          · try rw [if_pos rfl]
            intro r hr
            rcases updateCounters_mem_strong _ _ _ _ r hr with ⟨_, _, hdn⟩ | ⟨hp, hr2⟩
            · exact hdn ▸ h0
            · rcases updateCounters_mem_strong _ _ _ _ r hr2 with ⟨hp2, _, _⟩ | ⟨_, hr3⟩
              · rw [hp2] at hp; cases hp
              · exact hlt r hr3
          · next hthr =>
            intro r hr
            rcases updateCounters_mem_strong _ _ _ _ r hr with ⟨_, _, hdn⟩ | ⟨_, hr2⟩
            · exact hdn ▸ Nat.lt_of_not_le hthr
            · exact hlt r hr2
        · split
          · try rw [if_pos rfl]
            intro r hr
            rcases updateCounters_mem_strong _ _ _ _ r hr with ⟨_, _, hdn⟩ | ⟨hp, hr2⟩
            · exact hdn ▸ h0
            · rcases updateCounters_mem_strong _ _ _ _ r hr2 with ⟨hp2, _, _⟩ | ⟨_, hr3⟩
              · rw [hp2] at hp; cases hp
              · exact hlt r hr3
          · next hthr =>
            intro r hr
            rcases updateCounters_mem_strong _ _ _ _ r hr with ⟨_, _, hdn⟩ | ⟨_, hr2⟩
            · exact hdn ▸ Nat.lt_of_not_le hthr
            · exact hlt r hr2

/-- A poll cycle keeps every stored downvote counter below a positive
threshold (its upsert writes zero). -/
theorem pollCycle_keeps_lt (cfg : Config) (snap : Option Track) (sys : SysState)
    (h0 : 0 < cfg.threshold)
    (hlt : ∀ r ∈ sys.store.current_song, r.downvotes < cfg.threshold) :
    ∀ r ∈ (pollCycle cfg snap sys).store.current_song,
      r.downvotes < cfg.threshold := by
  intro r hr
  unfold pollCycle at hr
  cases snap with
  | none => exact hlt r hr
  | some track =>
    dsimp only at hr
    split at hr
    · split at hr
      · rcases upsertCurrentSong_mem _ _ r hr with rfl | h
        · exact h0
        · exact hlt r h
      · rcases upsertCurrentSong_mem _ _ r hr with rfl | h
        · exact h0
        · exact hlt r h
    · rcases upsertCurrentSong_mem _ _ r hr with rfl | h
      · exact h0
      · exact hlt r h

/-- As long as every external skip command succeeds, every reachable state
keeps all stored downvote counters below a positive threshold. -/
theorem runOps_keeps_lt (cfg : Config) (h0 : 0 < cfg.threshold) (ops : List Op)
    (hops : ∀ op ∈ ops, opSkipOk op = true) :
    ∀ r ∈ (runOps cfg ops).store.current_song, r.downvotes < cfg.threshold := by
  rw [runOps]
  have main : ∀ (l : List Op), (∀ op ∈ l, opSkipOk op = true) →
      ∀ (sys : SysState), (∀ r ∈ sys.store.current_song, r.downvotes < cfg.threshold) →
      ∀ r ∈ (l.foldl (stepOp cfg) sys).store.current_song,
        r.downvotes < cfg.threshold := by
    intro l
    induction l with
    | nil => intro _ sys h; exact h
    | cons op t ih =>
      intro hl sys h
      refine ih (fun o ho => hl o (List.mem_cons_of_mem _ ho)) _ ?_
      cases op with
      | poll snap => exact pollCycle_keeps_lt cfg snap sys h0 h
      | vote skipOk d v =>
        have hok : skipOk = true := hl _ (List.mem_cons_self _ _)
        subst hok
        exact postVote_keeps_lt cfg sys.store d v h0 h
  exact main ops hops initState (by intro r hr; cases hr)

end PartyVote

/-!
### Claim theorems
-/

namespace PartyVote

/-- Claim C1: when a valid, non-duplicate "down" vote pushes the current
song's downvote count to the configured threshold and the external skip
command succeeds (a successful vote operation), the request attempts the skip
command exactly once, appends exactly one history row with `skipped = true`
carrying the final downvote count, leaves no ledger row for that
(party, track), and resets the party's stored counters to (0, 0). -/
theorem C1_threshold_skip (cfg : Config) (s : Store) (song : CurrentSong) (d : String)
    (hd : d ≠ "")
    (hsong : selectSingleSong s cfg.partyId = some song)
    (hnew : hasVote s.votes cfg.partyId song.spotify_track_id d = false)
    (hthr : cfg.threshold ≤ song.downvotes + 1) :
    (postVote cfg true s (some d) (some "down")).skipAttempts = 1 ∧
    (postVote cfg true s (some d) (some "down")).store.song_history =
      s.song_history ++
        [⟨cfg.partyId, song.spotify_track_id, song.track_name, song.artist,
          song.downvotes + 1, true⟩] ∧
    (∀ r ∈ (postVote cfg true s (some d) (some "down")).store.votes,
      ¬(r.party_id = cfg.partyId ∧ r.spotify_track_id = song.spotify_track_id)) ∧
    (∀ r ∈ (postVote cfg true s (some d) (some "down")).store.current_song,
      r.party_id = cfg.partyId → r.upvotes = 0 ∧ r.downvotes = 0) := by
  have hinv : voteInputInvalid (some d) (some "down") = false := by
    simp [voteInputInvalid, truthyString, hd]
  have hins : insertVote s ⟨cfg.partyId, song.spotify_track_id, d, "down"⟩ =
      some { s with votes :=
        s.votes ++ [⟨cfg.partyId, song.spotify_track_id, d, "down"⟩] } := by
    unfold insertVote
    rw [show hasVote s.votes cfg.partyId song.spotify_track_id d = false from hnew]
    rfl
  have hpv : postVote cfg true s (some d) (some "down") =
      ⟨.ok song.upvotes (song.downvotes + 1) (cfg.threshold - (song.downvotes + 1)) true,
       deleteVotes
         (updateCounters
           (insertHistory
             (updateCounters
               { s with votes :=
                   s.votes ++ [⟨cfg.partyId, song.spotify_track_id, d, "down"⟩] }
               cfg.partyId song.upvotes (song.downvotes + 1))
             ⟨cfg.partyId, song.spotify_track_id, song.track_name, song.artist,
              song.downvotes + 1, true⟩)
           cfg.partyId 0 0)
         cfg.partyId song.spotify_track_id,
       1⟩ := by
    unfold postVote
    simp only [hinv, Bool.false_eq_true, if_false, hsong, Option.getD_some]
    rw [hins]
    simp only [show ("down" == "up") = false from rfl, Bool.false_eq_true, if_false,
      if_pos hthr]
    rfl
  refine ⟨by rw [hpv], by rw [hpv]; rfl, ?_, ?_⟩
  · intro r hr
    rw [hpv] at hr
    simp only [deleteVotes, updateCounters, insertHistory, List.mem_filter] at hr
    obtain ⟨_, hpred⟩ := hr
    simp only [Bool.not_eq_true', Bool.and_eq_false_iff, beq_eq_false_iff_ne] at hpred
    rintro ⟨h1, h2⟩
    rcases hpred with h | h
    · exact h h1
    · exact h h2
  · intro r hr
    rw [hpv] at hr
    exact updateCounters_mem _ _ _ _ r (by simpa only [deleteVotes] using hr)

/-- Witness for C1: in the default configuration, with track "A" at four
downvotes and an empty ledger, a fifth "down" vote from device "d5" attempts
exactly one skip, archives the track as skipped with five downvotes, and
leaves no ledger row for it. -/
theorem C1_threshold_skip_witness :
    (postVote cfg5 true storeAt4 (some "d5") (some "down")).skipAttempts = 1 ∧
    (postVote cfg5 true storeAt4 (some "d5") (some "down")).store.song_history =
      [⟨"p1", "A", "Song A", "Artist A", 5, true⟩] :=
  have h := C1_threshold_skip cfg5 storeAt4 ⟨"p1", "A", "Song A", "Artist A", 0, 4⟩
    "d5" (by decide) (by decide) (by decide) (by decide)
  ⟨h.1, h.2.1⟩

/-- Claim C2: a vote whose (party, track, device) tuple already exists in the
ledger answers 409 and changes nothing in the store; and in every reachable
state the ledger holds at most one row per (party, track, device) tuple. -/
theorem C2_already_voted (cfg : Config) (skipOk : Bool) (s : Store) (d v : String)
    (song : CurrentSong)
    (hd : d ≠ "") (hv : v = "up" ∨ v = "down")
    (hsong : selectSingleSong s cfg.partyId = some song)
    (hdup : hasVote s.votes cfg.partyId song.spotify_track_id d = true) :
    ((postVote cfg skipOk s (some d) (some v)).resp = .conflict ∧
     (postVote cfg skipOk s (some d) (some v)).store = s) ∧
    ∀ sys, Reachable cfg sys → VotesUnique sys.store.votes := by
  have hinv : voteInputInvalid (some d) (some v) = false := by
    rcases hv with rfl | rfl <;> simp [voteInputInvalid, truthyString, hd]
  have hins : insertVote s ⟨cfg.partyId, song.spotify_track_id, d, v⟩ = none := by
    unfold insertVote
    rw [show hasVote s.votes cfg.partyId song.spotify_track_id d = true from hdup]
    rfl
  constructor
  · have hpv : postVote cfg skipOk s (some d) (some v) = ⟨.conflict, s, 0⟩ := by
      unfold postVote
      simp only [hinv, Bool.false_eq_true, if_false, hsong, Option.getD_some]
      rw [hins]
    exact ⟨by rw [hpv], by rw [hpv]⟩
  · exact votesUnique_reachable cfg

/-- Witness for C2: device "d1", which already voted on track "A", gets a 409
and an unchanged store; the state reached by the `opsFailedSkip` scenario has
a duplicate-free ledger. -/
theorem C2_already_voted_witness :
    ((postVote cfg5 true storeVotedD1 (some "d1") (some "down")).resp =
      .conflict ∧
     (postVote cfg5 true storeVotedD1 (some "d1") (some "down")).store =
      storeVotedD1) ∧
    VotesUnique sysFailedSkip.store.votes :=
  have h := C2_already_voted cfg5 true storeVotedD1 "d1" "down"
    ⟨"p1", "A", "Song A", "Artist A", 0, 1⟩ (by decide) (Or.inr rfl)
    (by decide) (by decide)
  ⟨h.1, h.2 sysFailedSkip ⟨opsFailedSkip, rfl⟩⟩

end PartyVote

namespace PartyVote

/-- Claim C3 is false on the code: a poll cycle that observes the same track
identifier as the last-seen one is not a no-op — the unconditional upsert of
the poll loop rewrites the party's `current_song` row with both counters
zeroed, wiping the accumulated tallies (2, 3) to (0, 0). -/
theorem C3_same_track_poll_wipes_counters :
    sysMidParty.lastTrackId = some "A" ∧ trackA.id = "A" ∧
    sysMidParty.store.current_song = [⟨"p1", "A", "Song A", "Artist A", 2, 3⟩] ∧
    (pollCycle cfg5 (some trackA) sysMidParty).store.current_song =
      [⟨"p1", "A", "Song A", "Artist A", 0, 0⟩] := by
  refine ⟨rfl, rfl, rfl, by decide⟩

/-- Claim C4 is false on the code: in the canonical handler the skip command
is not guarded, so when it fails at the threshold the outer catch answers 500
and none of the local steps run — no history row is written, the ledger keeps
the new vote row, and the counters stay at (0, 5) instead of being reset. -/
theorem C4_failed_skip_aborts_local_steps :
    (postVote cfg5 false storeAt4 (some "d5") (some "down")).skipAttempts = 1 ∧
    (postVote cfg5 false storeAt4 (some "d5") (some "down")).resp =
      .internalError ∧
    (postVote cfg5 false storeAt4 (some "d5") (some "down")).store.song_history =
      [] ∧
    (postVote cfg5 false storeAt4 (some "d5") (some "down")).store.votes =
      [⟨"p1", "A", "d5", "down"⟩] ∧
    (postVote cfg5 false storeAt4 (some "d5") (some "down")).store.current_song =
      [⟨"p1", "A", "Song A", "Artist A", 0, 5⟩] := by
  refine ⟨by decide, by decide, by decide, by decide, by decide⟩

/-- Claim C5: a poll cycle that observes a new track identifier while a
(non-empty) last-seen identifier is recorded and a current-song row exists
appends one history row for the prior track with `skipped = false` and its
final downvote tally, deletes the prior track's ledger rows, and leaves for
the party exactly one current-song row: the incoming track at (0, 0). -/
theorem C5_transition_archives (cfg : Config) (sys : SysState) (track : Track)
    (lastId : String) (prev : CurrentSong)
    (hlast : sys.lastTrackId = some lastId) (hne : lastId ≠ "")
    (hdiff : lastId ≠ track.id)
    (hprev : selectSingleSong sys.store cfg.partyId = some prev) :
    (pollCycle cfg (some track) sys).store.song_history =
      sys.store.song_history ++
        [⟨cfg.partyId, prev.spotify_track_id, prev.track_name, prev.artist,
          prev.downvotes, false⟩] ∧
    (∀ r ∈ (pollCycle cfg (some track) sys).store.votes,
      ¬(r.party_id = cfg.partyId ∧ r.spotify_track_id = prev.spotify_track_id)) ∧
    (pollCycle cfg (some track) sys).store.current_song.filter
        (fun r => r.party_id == cfg.partyId) =
      [⟨cfg.partyId, track.id, track.name, track.artist, 0, 0⟩] := by
  have hguard : (match sys.lastTrackId with
      | some lastId => !(lastId == "") && !(lastId == track.id)
      | none => false) = true := by
    rw [hlast]
    simp [hne, hdiff]
  have hpc : pollCycle cfg (some track) sys =
      { lastTrackId := some track.id,
        store := upsertCurrentSong
          (deleteVotes
            (insertHistory sys.store
              ⟨cfg.partyId, prev.spotify_track_id, prev.track_name, prev.artist,
               prev.downvotes, false⟩)
            cfg.partyId prev.spotify_track_id)
          ⟨cfg.partyId, track.id, track.name, track.artist, 0, 0⟩ } := by
    unfold pollCycle
    dsimp only
    rw [hguard]
    simp only [if_true, hprev]
  refine ⟨by rw [hpc]; rfl, ?_, ?_⟩
  · intro r hr
    rw [hpc] at hr
    simp only [upsertCurrentSong, deleteVotes, insertHistory, List.mem_filter] at hr
    obtain ⟨_, hpred⟩ := hr
    simp only [Bool.not_eq_true', Bool.and_eq_false_iff, beq_eq_false_iff_ne] at hpred
    rintro ⟨h1, h2⟩
    rcases hpred with h | h
    · exact h h1
    · exact h h2
  · rw [hpc]
    exact upsertCurrentSong_filter _
      ⟨cfg.partyId, track.id, track.name, track.artist, 0, 0⟩ prev
      (selectSingleSong_filter_eq _ _ _ hprev)

/-- Witness for C5: with track "A" last seen at tallies (2, 3), observing
track "B" archives "A" with three downvotes and not skipped, and leaves "B"
at (0, 0) as the party's only current-song row. -/
theorem C5_transition_archives_witness :
    (pollCycle cfg5 (some ⟨"B", "Song B", "Artist B"⟩) sysMidParty).store.song_history =
      [⟨"p1", "A", "Song A", "Artist A", 3, false⟩] ∧
    (pollCycle cfg5 (some ⟨"B", "Song B", "Artist B"⟩) sysMidParty).store.current_song.filter
        (fun r => r.party_id == cfg5.partyId) =
      [⟨"p1", "B", "Song B", "Artist B", 0, 0⟩] :=
  have h := C5_transition_archives cfg5 sysMidParty ⟨"B", "Song B", "Artist B"⟩
    "A" ⟨"p1", "A", "Song A", "Artist A", 2, 3⟩ rfl (by decide) (by decide) (by decide)
  ⟨h.1, h.2.2⟩

end PartyVote

namespace PartyVote

/-- Claim C6: the vote endpoint answers 400 on malformed input, 404 when the
party has no single current-song row, 409 on a duplicate device vote; and
every success body satisfies `remaining_to_skip = max(threshold − downvotes, 0)`
with `skipped` true exactly when `downvotes ≥ threshold`. -/
theorem C6_response_contract (cfg : Config) (skipOk : Bool) (s : Store)
    (d v : Option String) :
    (voteInputInvalid d v = true → (postVote cfg skipOk s d v).resp = .badRequest) ∧
    (voteInputInvalid d v = false → selectSingleSong s cfg.partyId = none →
      (postVote cfg skipOk s d v).resp = .notFound) ∧
    (∀ song, voteInputInvalid d v = false →
      selectSingleSong s cfg.partyId = some song →
      hasVote s.votes cfg.partyId song.spotify_track_id (d.getD "") = true →
      (postVote cfg skipOk s d v).resp = .conflict) ∧
    (∀ u dn rem sk, (postVote cfg skipOk s d v).resp = .ok u dn rem sk →
      (rem : ℤ) = max ((cfg.threshold : ℤ) - (dn : ℤ)) 0 ∧
      (sk = true ↔ cfg.threshold ≤ dn)) := by
  refine ⟨?_, ?_, ?_, ?_⟩
  · intro h
    unfold postVote
    rw [h]
    rfl
  · intro h1 h2
    unfold postVote
    simp only [h1, Bool.false_eq_true, if_false, h2]
  · intro song h1 h2 h3
    have hins : insertVote s
        ⟨cfg.partyId, song.spotify_track_id, d.getD "", v.getD ""⟩ = none := by
      unfold insertVote
      rw [show hasVote s.votes cfg.partyId song.spotify_track_id (d.getD "") = true
        from h3]
      rfl
    unfold postVote
    simp only [h1, Bool.false_eq_true, if_false, h2, hins]
  · intro u dn rem sk h
    unfold postVote at h
    dsimp only at h
    repeat' split at h
    all_goals dsimp only at h
    all_goals
      first
      | exact VoteResponse.noConfusion h
      | (injection h with h1 h2 h3 h4
         subst h2
         subst h3
         subst h4
         exact ⟨by omega, by simp; omega⟩)

/-- Witness for C6: with the current song at (0, 0) and threshold 5, a "down"
vote from "d1" answers `ok 0 1 4 false`, and indeed 4 = max(5 − 1, 0) with
`skipped = false` matching 5 ≤ 1 being false; a request without a device id
answers 400. -/
theorem C6_response_contract_witness :
    (((4 : Nat) : ℤ) = max ((5 : ℤ) - ((1 : Nat) : ℤ)) 0 ∧
      (false = true ↔ cfg5.threshold ≤ 1)) ∧
    (postVote cfg5 true storeFresh none (some "down")).resp = .badRequest :=
  ⟨(C6_response_contract cfg5 true storeFresh (some "d1") (some "down")).2.2.2
      0 1 4 false (by decide),
   (C6_response_contract cfg5 true storeFresh none (some "down")).1 (by decide)⟩

end PartyVote

namespace PartyVote

/-- Claim C7 is false on the code: after an external skip failure leaves the
stored downvote count at the threshold (a reachable state, via
`opsFailedSkip`), a successful "up" vote from a fresh device does trigger the
skip branch — it attempts the skip command, answers `skipped = true`, and
writes a history row. -/
theorem C7_up_vote_can_skip_after_failed_skip :
    Reachable cfg5 sysFailedSkip ∧
    (postVote cfg5 true sysFailedSkip.store (some "d6") (some "up")).resp =
      .ok 1 5 0 true ∧
    (postVote cfg5 true sysFailedSkip.store (some "d6") (some "up")).skipAttempts =
      1 ∧
    (postVote cfg5 true sysFailedSkip.store (some "d6") (some "up")).store.song_history =
      [⟨"p1", "A", "Song A", "Artist A", 5, true⟩] :=
  ⟨⟨opsFailedSkip, rfl⟩, by decide, by decide, by decide⟩

/-- Claim C7 as amended: in any state whose stored downvote counters are all
below the threshold, an "up" vote never triggers a skip — it attempts no skip
command, writes no history row, leaves every downvote counter unchanged, and
any success body carries `skipped = false`.  Moreover all states reachable
through operations whose skip commands succeed satisfy that counter bound
(for a positive threshold), so the original claim holds as long as no
external skip command has failed. -/
theorem C7_amended_up_vote_no_skip (cfg : Config) (skipOk : Bool) (s : Store)
    (d : Option String)
    (hlt : ∀ r ∈ s.current_song, r.downvotes < cfg.threshold) :
    ((postVote cfg skipOk s d (some "up")).skipAttempts = 0 ∧
     (postVote cfg skipOk s d (some "up")).store.song_history = s.song_history ∧
     (postVote cfg skipOk s d (some "up")).store.current_song.map
        CurrentSong.downvotes = s.current_song.map CurrentSong.downvotes ∧
     (∀ u dn rem sk, (postVote cfg skipOk s d (some "up")).resp = .ok u dn rem sk →
       sk = false)) ∧
    (∀ ops, 0 < cfg.threshold → (∀ op ∈ ops, opSkipOk op = true) →
      ∀ r ∈ (runOps cfg ops).store.current_song, r.downvotes < cfg.threshold) := by
  refine ⟨?_, fun ops h0 hops => runOps_keeps_lt cfg h0 ops hops⟩
  unfold postVote
  dsimp only
  split
  · exact ⟨rfl, rfl, rfl, fun u dn rem sk h => VoteResponse.noConfusion h⟩
  · split
    · exact ⟨rfl, rfl, rfl, fun u dn rem sk h => VoteResponse.noConfusion h⟩
    · next song hsong =>
      split
      · exact ⟨rfl, rfl, rfl, fun u dn rem sk h => VoteResponse.noConfusion h⟩
      · next s1 hins =>
        obtain ⟨hguard, hs1⟩ := insertVote_eq _ _ _ hins
        subst hs1
        have hup : ((some "up" : Option String).getD "" == "up") = true := rfl
        rw [if_pos hup]
        have hdn : ¬ cfg.threshold ≤ song.downvotes :=
          Nat.not_le.mpr (hlt song (selectSingleSong_mem _ _ _ hsong))
        rw [if_neg hdn]
        refine ⟨rfl, rfl, ?_, ?_⟩
        · show (updateCounters _ cfg.partyId _ song.downvotes).current_song.map
            CurrentSong.downvotes = s.current_song.map CurrentSong.downvotes
          simp only [updateCounters, List.map_map]
          refine List.map_congr_left ?_
          intro a ha
          simp only [Function.comp_apply]
          by_cases hp : (a.party_id == cfg.partyId) = true
          · have ha2 := selectSingleSong_unique s cfg.partyId song hsong a ha hp
            subst ha2
            rw [if_pos hp]
          · rw [if_neg hp]
        · intro u dn rem sk h
          dsimp only at h
          injection h with h1 h2 h3 h4
          exact h4.symm

/-- Witness for the amended C7: on the fresh store (counters (0, 0) < 5) an
"up" vote attempts no skip and leaves the history empty; and the one-poll
operation sequence keeps all counters below the threshold. -/
theorem C7_amended_up_vote_no_skip_witness :
    ((postVote cfg5 true storeFresh (some "d9") (some "up")).skipAttempts = 0 ∧
     (postVote cfg5 true storeFresh (some "d9") (some "up")).store.song_history =
       storeFresh.song_history) ∧
    ∀ r ∈ (runOps cfg5 [Op.poll (some trackA)]).store.current_song,
      r.downvotes < cfg5.threshold :=
  have h := C7_amended_up_vote_no_skip cfg5 true storeFresh (some "d9") (by decide)
  ⟨⟨h.1.1, h.1.2.1⟩, h.2 [Op.poll (some trackA)] (by decide) (by decide)⟩

end PartyVote

namespace PartyVote

/-- Claim C8: on the first poll observation (no last-seen identifier), the
cycle records the observed identifier as last-seen and emits no transition:
the history table and the vote ledger are untouched. -/
theorem C8_first_observation (cfg : Config) (sys : SysState) (track : Track)
    (h : sys.lastTrackId = none) :
    (pollCycle cfg (some track) sys).lastTrackId = some track.id ∧
    (pollCycle cfg (some track) sys).store.song_history = sys.store.song_history ∧
    (pollCycle cfg (some track) sys).store.votes = sys.store.votes := by
  have hpc : pollCycle cfg (some track) sys =
      { lastTrackId := some track.id,
        store := upsertCurrentSong sys.store
          ⟨cfg.partyId, track.id, track.name, track.artist, 0, 0⟩ } := by
    unfold pollCycle
    dsimp only
    rw [h]
    rfl
  exact ⟨by rw [hpc], by rw [hpc]; rfl, by rw [hpc]; rfl⟩

/-- Witness for C8: a fresh process observing track "A" records it as
last-seen and writes no history row. -/
theorem C8_first_observation_witness :
    (pollCycle cfg5 (some trackA) ⟨none, storeFresh⟩).lastTrackId = some "A" ∧
    (pollCycle cfg5 (some trackA) ⟨none, storeFresh⟩).store.song_history =
      storeFresh.song_history :=
  have h := C8_first_observation cfg5 ⟨none, storeFresh⟩ trackA rfl
  ⟨h.1, h.2.1⟩

/-- Claim C9 is false on the code as to the rate formula: the program
computes `(skippedSongs / totalSongs) * 100` in binary64 before
`Math.round`, and at 23 skipped of 40 total the two roundings land on
57.49999999999999289…, so the endpoint reports 57 while the claim's exact
`round(100 × skipped / total)` gives `round(57.5)` = 58. -/
theorem C9_exact_rate_counterexample :
    (getAnalytics storeHist40 "p1").total_songs = 40 ∧
    (getAnalytics storeHist40 "p1").skipped_songs = 23 ∧
    (getAnalytics storeHist40 "p1").skip_rate = 57 ∧
    jsRound (100 * ((getAnalytics storeHist40 "p1").skipped_songs : ℚ) /
      ((getAnalytics storeHist40 "p1").total_songs : ℚ)) = 58 := by
  refine ⟨by decide, by decide, by decide, ?_⟩
  have h23 : (getAnalytics storeHist40 "p1").skipped_songs = 23 := by decide
  have h40 : (getAnalytics storeHist40 "p1").total_songs = 40 := by decide
  rw [h23, h40]
  have harith : 100 * ((23 : ℕ) : ℚ) / ((40 : ℕ) : ℚ) + 1 / 2 = 58 := by norm_num
  rw [jsRound, harith]
  simp

/-- Claim C9 as amended: the analytics endpoint returns the party's history
list, its length as the track total, the number of skipped rows, and a skip
rate that equals `Math.round` of the binary64 evaluation of
`(skipped / total) * 100` when the total is positive — which matches the
exact `round(100 × skipped / total)` except where the double roundings cross
a half-integer, as at 23 of 40 — and 0 when the history is empty (no
division by zero). -/
theorem C9_analytics_amended (s : Store) (p : String) :
    (getAnalytics s p).history = s.song_history.filter (fun h => h.party_id == p) ∧
    (getAnalytics s p).total_songs = (getAnalytics s p).history.length ∧
    (getAnalytics s p).skipped_songs =
      ((getAnalytics s p).history.filter (fun h => h.skipped)).length ∧
    (0 < (getAnalytics s p).total_songs →
      (getAnalytics s p).skip_rate =
        skipRateJS (getAnalytics s p).skipped_songs (getAnalytics s p).total_songs) ∧
    ((getAnalytics s p).history = [] → (getAnalytics s p).skip_rate = 0) := by
  simp only [getAnalytics]
  refine ⟨trivial, trivial, trivial, ?_, ?_⟩
  · intro hpos
    rw [if_neg (by omega)]
  · intro hemp
    rw [if_pos (by simp [hemp])]

/-- Witness for the amended C9: on a three-row history with one skip, the
rate equals the binary64 percentage computation and evaluates to 33. -/
theorem C9_analytics_amended_witness :
    (getAnalytics storeHist "p1").skip_rate =
      skipRateJS (getAnalytics storeHist "p1").skipped_songs
        (getAnalytics storeHist "p1").total_songs ∧
    (getAnalytics storeHist "p1").total_songs = 3 ∧
    (getAnalytics storeHist "p1").skip_rate = 33 :=
  ⟨(C9_analytics_amended storeHist "p1").2.2.2.1 (by decide), by decide, by decide⟩

/-- Claim C10: a vote request with a falsy device id or a direction other
than "up"/"down" answers 400 with the store unchanged and no skip attempt,
and it does so for every store — validation precedes any store access. -/
theorem C10_validation_first (cfg : Config) (skipOk : Bool) (s : Store)
    (d v : Option String) (h : voteInputInvalid d v = true) :
    postVote cfg skipOk s d v = ⟨.badRequest, s, 0⟩ ∧
    ∀ s2 : Store, postVote cfg skipOk s2 d v = ⟨.badRequest, s2, 0⟩ := by
  refine ⟨?_, fun s2 => ?_⟩ <;> (unfold postVote; rw [h]; rfl)

/-- Witness for C10: a request with no device id answers 400 and leaves the
fresh store untouched, whatever the store. -/
theorem C10_validation_first_witness :
    postVote cfg5 true storeFresh none (some "down") =
      ⟨.badRequest, storeFresh, 0⟩ ∧
    postVote cfg5 true storeAt4 none (some "down") = ⟨.badRequest, storeAt4, 0⟩ :=
  have h := C10_validation_first cfg5 true storeFresh none (some "down") (by decide)
  ⟨h.1, h.2 storeAt4⟩

end PartyVote
